import Mathlib

/-!
Verification of the realtime transcription client
(`Realtime-SDK/gpt_4o_transcribe_sdk.py`, class `RealtimeTranscriberSDK`).

The Python source is shallowly embedded below:

* `b64encode` is Python's `base64.b64encode` on a list of bytes.
* `stream_microphone` (the Uplink Pump) is modelled as a function over a
  finite schedule of loop iterations; each `PumpStep` records what the
  environment supplies at that iteration (the value of `is_streaming`
  observed at the loop check — that field is mutated concurrently by the
  dispatcher, by `cleanup`, or by external parties — whether
  `self.websocket` is set, the result of `self.stream.read`, and the result
  of `self.websocket.send`).  The schedule running out models cutting off a
  still-running loop.
* `handle_websocket_messages` (the Downlink Dispatcher) is a fold over the
  inbound message sequence; `json.loads` is an external library call, so a
  raw message is embedded as either `malformed` (loads raises
  `JSONDecodeError`) or `valid` with the decoded field values.  A possible
  exception while handling one decoded event (caught by the inner
  `except Exception`) is embedded as an optional fault telling after how
  many of the event's prints the handler raised.
* `cleanup` and `connect_and_run` (the Session Controller) act on an
  explicit `SDKState`; release calls on the audio stream and the audio
  interface are counted so that double releases are visible.
* `gatherCompletionTime` gives the completion time of
  `await asyncio.gather(t1, t2)` (default `return_exceptions=False`):
  the awaiting coroutine resumes at the first child exception, but when
  both children return normally it resumes only once both have finished.

Console output is modelled as the list of strings written to stdout, one
entry per `print` call (Python's `print` appends `"\n"`, or the given
`end`, and separates arguments with a space).
-/

namespace RealtimeSDK

/-! ### Base64 (Python `base64.b64encode(...).decode('utf-8')`) -/

/-- The standard base64 alphabet used by `base64.b64encode`. -/
def b64Alphabet : List Char :=
  "ABCDEFGHIJKLMNOPQRSTUVWXYZabcdefghijklmnopqrstuvwxyz0123456789+/".toList

/-- Character for a 6-bit group. -/
def b64Char (n : Nat) : Char := b64Alphabet.getD n 'A'

/-- Standard base64 of a byte list (each byte `< 256`), with `=` padding,
matching `base64.b64encode` on the bytes. -/
def b64encode : List Nat → String
  | [] => ""
  | [b1] =>
      String.mk [b64Char (b1 / 4), b64Char (b1 % 4 * 16), '=', '=']
  | [b1, b2] =>
      String.mk [b64Char (b1 / 4), b64Char (b1 % 4 * 16 + b2 / 16),
                 b64Char (b2 % 16 * 4), '=']
  | b1 :: b2 :: b3 :: rest =>
      String.mk [b64Char (b1 / 4), b64Char (b1 % 4 * 16 + b2 / 16),
                 b64Char (b2 % 16 * 4 + b3 / 64), b64Char (b3 % 64)]
        ++ b64encode rest

/-! ### Outbound messages (`send_session_config`, `stream_microphone`) -/

/-- Deployment name constant from the module header. -/
def DEPLOYMENT_NAME : String := "gpt-4o-mini-transcribe"

/-- `session.input_audio_transcription` object of the configuration message. -/
structure InputAudioTranscription where
  model : String
  prompt : String
  language : String
deriving DecidableEq, Repr

/-- `session.turn_detection` object of the configuration message. -/
structure TurnDetection where
  typ : String
  threshold : Rat
  prefix_padding_ms : Nat
  silence_duration_ms : Nat
deriving DecidableEq, Repr

/-- The `session` payload of the configuration message built by
`send_session_config`. -/
structure SessionConfig where
  input_audio_format : String
  input_audio_transcription : InputAudioTranscription
  noise_reduction_type : String
  turn_detection : TurnDetection
deriving DecidableEq, Repr

/-- The concrete configuration sent by `send_session_config` (source lines
76–93). -/
def sessionConfigPayload : SessionConfig :=
  { input_audio_format := "pcm16"
    input_audio_transcription :=
      { model := DEPLOYMENT_NAME
        prompt := "Respond in English."
        language := "en" }
    noise_reduction_type := "near_field"
    turn_detection :=
      { typ := "server_vad"
        threshold := 1 / 2
        prefix_padding_ms := 300
        silence_duration_ms := 200 } }

/-- A message sent over the websocket: the one configuration message
(`"transcription_session.update"`) or an audio-append message
(`"input_audio_buffer.append"` with a base64 `audio` field). -/
inductive OutboundMessage where
  | sessionConfig (cfg : SessionConfig)
  | audioAppend (audio : String)
deriving DecidableEq, Repr

/-! ### Uplink Pump (`stream_microphone`, source lines 96–112) -/

/-- What the environment supplies for one iteration of the
`while self.is_streaming and self.websocket` loop. -/
structure PumpStep where
  /-- Value of `self.is_streaming` read at the loop check. -/
  flagObserved : Bool
  /-- Whether `self.websocket` is set (not `None`) at the loop check. -/
  wsPresent : Bool
  /-- Result of `self.stream.read(CHUNK, exception_on_overflow=False)`:
  the frame bytes, or a raised exception's message. -/
  readResult : Except String (List Nat)
  /-- Result of `await self.websocket.send(...)` for this frame. -/
  sendResult : Except String Unit
deriving Repr

/-- How the pump's loop ended. -/
inductive PumpExit where
  /-- The loop check failed: `is_streaming` false or `websocket` unset. -/
  | flagFalse
  /-- A read or send raised; caught by the `except`, which prints
  `"Audio streaming error:"` and sets `is_streaming = False`. -/
  | fault (msg : String)
  /-- Schedule exhausted while the loop was still running. -/
  | outOfSchedule
deriving DecidableEq, Repr

/-- Result of a pump run: the audio-append messages actually sent, how the
loop ended, and whether the pump itself wrote `is_streaming = False`
(which it does exactly in the `except` handler). -/
structure PumpResult where
  sent : List OutboundMessage
  exit : PumpExit
  wroteFlagFalse : Bool
deriving DecidableEq, Repr

/-- `RealtimeTranscriberSDK.stream_microphone`: while the observed
`is_streaming` flag is true and the websocket is set, read one frame,
base64-encode it, and send an `input_audio_buffer.append` message; any
exception from the read or the send is caught, `is_streaming` is set to
false, and the function returns normally. -/
def stream_microphone : List PumpStep → PumpResult
  | [] => ⟨[], .outOfSchedule, false⟩
  | s :: rest =>
      if s.flagObserved && s.wsPresent then
        match s.readResult with
        | .error e => ⟨[], .fault e, true⟩
        | .ok frame =>
            match s.sendResult with
            | .error e => ⟨[], .fault e, true⟩
            | .ok _ =>
                let r := stream_microphone rest
                ⟨.audioAppend (b64encode frame) :: r.sent, r.exit, r.wroteFlagFalse⟩
      else ⟨[], .flagFalse, false⟩

/-- A schedule in which the session stays active and every read and send
succeeds: the run in which exactly the given frames are read. -/
def allOkSchedule (frames : List (List Nat)) : List PumpStep :=
  frames.map fun f => ⟨true, true, .ok f, .ok ()⟩

/-- An iteration at which the flag is up, the websocket is set, and both
the read and the send succeed. -/
def stepOk (s : PumpStep) : Prop :=
  s.flagObserved = true ∧ s.wsPresent = true ∧
    (∃ f, s.readResult = .ok f) ∧ s.sendResult = .ok ()

/-- The frame bytes a step's read returned (junk `[]` on a failed read). -/
def stepFrame (s : PumpStep) : List Nat :=
  match s.readResult with
  | .ok f => f
  | .error _ => []

/-! ### Downlink Dispatcher (`handle_websocket_messages`, lines 114–164) -/

/-- The field values `handle_websocket_messages` reads from a decoded
message `data`: `data.get("type", "")`, `data.get("delta", "")`,
`data.get("transcript", "")`, `data.get("text", "")`,
`data.get("item", "")`, and a printable rendering of the whole payload
(used by `print("Error event:", data)`). -/
structure EventData where
  typ : String
  delta : String
  transcript : String
  text : String
  item : String
  raw : String
deriving DecidableEq, Repr

def deltaEventType : String := "conversation.item.input_audio_transcription.delta"

def completedEventType : String := "conversation.item.input_audio_transcription.completed"

/-- Kind-specific handling of one decoded event (the `if`/`elif` chain,
source lines 124–155), as the chunks written to stdout.  Python's
truthiness test on the extracted string is the non-emptiness test. -/
def dispatchEvent (d : EventData) : List String :=
  if d.typ = deltaEventType then
    if d.delta ≠ "" then [d.delta ++ " "] else []
  else if d.typ = completedEventType then
    if d.transcript ≠ "" then ["\n" ++ d.transcript ++ "\n"] else []
  else if d.typ = "response.text.delta" then
    if d.delta ≠ "" then ["📥: " ++ d.delta ++ "\n"] else []
  else if d.typ = "response.text.done" then
    if d.text ≠ "" then ["📨: " ++ d.text ++ "\n"] else []
  else if d.typ = "item" then
    if d.item ≠ "" then ["\nFinal transcript: " ++ d.item ++ "\n"] else []
  else if d.typ = "error" then
    ["Error event: " ++ d.raw ++ "\n"]
  else []

/-- All stdout chunks for one decoded event handled without fault:
`print("Event type:", event_type)` first, then the kind-specific output. -/
def eventOutputs (d : EventData) : List String :=
  ("Event type: " ++ d.typ ++ "\n") :: dispatchEvent d

/-- One raw inbound websocket message, as the dispatcher's inner
`try` sees it. -/
inductive InboundMsg where
  /-- `json.loads` raises `JSONDecodeError`; the `except` body is `pass`. -/
  | malformed (raw : String)
  /-- `json.loads` succeeds with field values `d`.  When
  `fault = some (k, e)`, handling this event raises an exception with
  message `e` after `k` of the event's prints have been written; the inner
  `except Exception` catches it and prints
  `"Error processing message: ..."`. -/
  | valid (d : EventData) (fault : Option (Nat × String))
deriving DecidableEq, Repr

/-- Stdout chunks produced for one raw inbound message (one pass of the
`async for` body). -/
def processMsg : InboundMsg → List String
  | .malformed _ => []
  | .valid d none => eventOutputs d
  | .valid d (some (k, e)) =>
      (eventOutputs d).take k ++ ["Error processing message: " ++ e ++ "\n"]

/-- `RealtimeTranscriberSDK.handle_websocket_messages`: iterate over the
inbound messages, processing each one; if the message stream itself then
fails (`streamError`), the outer `except` reports it. -/
def handle_websocket_messages (msgs : List InboundMsg)
    (streamError : Option String) : List String :=
  msgs.flatMap processMsg ++
    match streamError with
    | none => []
    | some e => ["Error handling WebSocket messages: " ++ e ++ "\n"]

/-- The decoded form of a transcription-delta event carrying `piece`. -/
def deltaEvent (piece : String) : EventData :=
  ⟨deltaEventType, piece, "", "", "", ""⟩

/-- The decoded form of a transcription-completed event carrying `t`. -/
def completedEvent (t : String) : EventData :=
  ⟨completedEventType, "", t, "", "", ""⟩

/-! ### Session state, `cleanup`, `connect_and_run`, `asyncio.gather` -/

/-- The PyAudio stream object, with its release calls counted. -/
structure AudioStream where
  stopCalls : Nat
  closeCalls : Nat
deriving DecidableEq, Repr

/-- The mutable fields of a `RealtimeTranscriberSDK` instance relevant to
lifecycle, with release calls on the audio interface counted. -/
structure SDKState where
  stream : Option AudioStream
  interfaceTerminateCalls : Nat
  is_streaming : Bool
  websocketOpen : Bool
deriving DecidableEq, Repr

/-- `RealtimeTranscriberSDK.cleanup` (source lines 65–72): set
`is_streaming = False`; if `self.stream` is set, call `stop_stream()` and
`close()` on it (the field is never cleared); `self.audio_interface` is
always set, so call `terminate()` on it. -/
def cleanup (s : SDKState) : SDKState :=
  let s1 : SDKState := { s with is_streaming := false }
  let s2 : SDKState :=
    match s1.stream with
    | none => s1
    | some st =>
        { s1 with stream := some ⟨st.stopCalls + 1, st.closeCalls + 1⟩ }
  { s2 with interfaceTerminateCalls := s2.interfaceTerminateCalls + 1 }

/-- Outcome of `await asyncio.gather(audio_task, message_task)` inside the
inner `try` of `connect_and_run`. -/
inductive WaitOutcome where
  /-- Both tasks returned normally; `gather` returned. -/
  | bothReturned
  /-- A task raised; `gather` re-raised that exception. -/
  | taskRaised (e : String)
  /-- The wait was cancelled; `except asyncio.CancelledError: pass`. -/
  | cancelled
deriving DecidableEq, Repr

/-- `RealtimeTranscriberSDK.connect_and_run` (source lines 166–206), given
the result of `websockets.connect`, the result of the config send, the
pump's schedule, and the outcome of the `gather` wait.  Returns the final
instance state, the ordered sequence of messages sent on the websocket,
and the error lines printed.  Leaving the `async with` block closes the
websocket on every path; the `finally` always runs `cleanup`. -/
def connect_and_run (s : SDKState) (conn : Except String Unit)
    (cfg : Except String Unit) (sched : List PumpStep) (w : WaitOutcome) :
    SDKState × List OutboundMessage × List String :=
  match conn with
  | .error e => (cleanup s, [], ["Connection error: " ++ e ++ "\n"])
  | .ok _ =>
      let s1 : SDKState := { s with websocketOpen := true, is_streaming := true }
      match cfg with
      | .error e =>
          (cleanup { s1 with websocketOpen := false }, [],
            ["Connection error: " ++ e ++ "\n"])
      | .ok _ =>
          let outbound :=
            OutboundMessage.sessionConfig sessionConfigPayload ::
              (stream_microphone sched).sent
          match w with
          | .bothReturned =>
              (cleanup { s1 with websocketOpen := false }, outbound, [])
          | .cancelled =>
              (cleanup { s1 with websocketOpen := false }, outbound, [])
          | .taskRaised e =>
              (cleanup { s1 with websocketOpen := false }, outbound,
                ["Connection error: " ++ e ++ "\n"])

/-- One concurrent task's fate: the time at which it finishes and whether
it finishes by raising. -/
structure TaskOutcome where
  time : Nat
  failed : Bool
deriving DecidableEq, Repr

/-- Time at which `await asyncio.gather(t1, t2)` (default
`return_exceptions=False`) resumes the awaiting coroutine: at the first
child exception if any child raises, otherwise only once both children
have returned. -/
def gatherCompletionTime (t1 t2 : TaskOutcome) : Nat :=
  if t1.failed && t2.failed then min t1.time t2.time
  else if t1.failed then t1.time
  else if t2.failed then t2.time
  else max t1.time t2.time

/-- Time at which the first of the two tasks finishes, by normal return or
failure — what the spec says the controller's wait should complete at. -/
def firstFinishTime (t1 t2 : TaskOutcome) : Nat :=
  min t1.time t2.time

/-! ## Theorems -/

/-- On a schedule where the session stays active and every read and send
succeeds, the pump sends exactly one base64 audio-append message per frame,
in order. -/
theorem stream_microphone_allOk (frames : List (List Nat)) :
    stream_microphone (allOkSchedule frames) =
      ⟨frames.map (fun f => .audioAppend (b64encode f)), .outOfSchedule, false⟩ := by
  induction frames with
  | nil => rfl
  | cons f fs ih =>
      show stream_microphone (⟨true, true, .ok f, .ok ()⟩ :: allOkSchedule fs) = _
      simp only [stream_microphone, Bool.and_self, if_true, ih, List.map_cons]

/-- Claim C2: in a run in which the Uplink Pump reads N audio frames while
the active flag is true (and every send succeeds), exactly N audio-append
messages are sent, the i-th one carrying the base64 encoding of the i-th
frame, and the whole websocket send sequence of `connect_and_run` is the
single configuration message followed by those N messages. -/
theorem uplink_base64_after_config (s : SDKState) (frames : List (List Nat))
    (w : WaitOutcome) :
    (connect_and_run s (Except.ok ()) (Except.ok ()) (allOkSchedule frames) w).2.1 =
      OutboundMessage.sessionConfig sessionConfigPayload ::
        frames.map (fun f => OutboundMessage.audioAppend (b64encode f)) ∧
    (connect_and_run s (Except.ok ()) (Except.ok ()) (allOkSchedule frames) w).2.1.length =
      frames.length + 1 := by
  cases w <;> simp [connect_and_run, stream_microphone_allOk]

/-- Claim C7: if some iteration of the pump loop starts (flag up, websocket
set) and its frame read or its send raises, the pump ends in the fault
exit — the exception is caught, reported, and not re-raised to the caller —
writes `is_streaming = False`, and sends nothing further: only the
messages of the successful iterations before the failure were sent. -/
theorem pump_failure_sets_flag_and_stops (good : List PumpStep) (bad : PumpStep)
    (rest : List PumpStep) (hgood : ∀ s ∈ good, stepOk s)
    (hflag : bad.flagObserved = true) (hws : bad.wsPresent = true)
    (hbad : (∃ e, bad.readResult = Except.error e) ∨
      ((∃ f, bad.readResult = Except.ok f) ∧ ∃ e, bad.sendResult = Except.error e)) :
    (∃ e, (stream_microphone (good ++ bad :: rest)).exit = PumpExit.fault e) ∧
    (stream_microphone (good ++ bad :: rest)).wroteFlagFalse = true ∧
    (stream_microphone (good ++ bad :: rest)).sent =
      good.map (fun s => OutboundMessage.audioAppend (b64encode (stepFrame s))) := by
  induction good with
  | nil =>
      rcases hbad with ⟨e, he⟩ | ⟨⟨f, hf⟩, e, he⟩
      · refine ⟨⟨e, ?_⟩, ?_, ?_⟩ <;>
          simp [stream_microphone, hflag, hws, he]
      · refine ⟨⟨e, ?_⟩, ?_, ?_⟩ <;>
          simp [stream_microphone, hflag, hws, hf, he]
  | cons g gs ih =>
      obtain ⟨hgf, hgw, ⟨f, hf⟩, hgs⟩ := hgood g (List.mem_cons_self g gs)
      have ihr := ih fun s hs => hgood s (List.mem_cons_of_mem g hs)
      obtain ⟨⟨e, he⟩, hwrote, hsent⟩ := ihr
      refine ⟨⟨e, ?_⟩, ?_, ?_⟩ <;>
        simp [stream_microphone, hgf, hgw, hf, hgs, he, hwrote, hsent, stepFrame]

/-- Claim C8: the pump never begins a new read-encode-send iteration while
the active flag is false: if the `is_streaming` value observed at the k-th
loop check is false, at most k sends were issued in the whole run — so an
external `is_streaming = False` stops sends after at most the one
frame-read cycle already in flight. -/
theorem pump_stops_within_one_cycle (sched : List PumpStep) (k : Nat)
    (hk : k < sched.length) (hflag : (sched.get ⟨k, hk⟩).flagObserved = false) :
    (stream_microphone sched).sent.length ≤ k := by
  induction sched generalizing k with
  | nil => exact absurd hk (Nat.not_lt_zero k)
  | cons s rest ih =>
      cases k with
      | zero =>
          have : s.flagObserved = false := hflag
          simp [stream_microphone, this]
      | succ k =>
          have hk' : k < rest.length := Nat.lt_of_succ_lt_succ hk
          have hflag' : (rest.get ⟨k, hk'⟩).flagObserved = false := hflag
          by_cases hcond : s.flagObserved && s.wsPresent
          · cases hr : s.readResult with
            | error e => simp [stream_microphone, hcond, hr]
            | ok f =>
                cases hs : s.sendResult with
                | error e => simp [stream_microphone, hcond, hr, hs]
                | ok u =>
                    have := ih k hk' hflag'
                    simp only [stream_microphone, hcond, if_true, hr, hs,
                      List.length_cons]
                    exact Nat.succ_le_succ this
          · simp [stream_microphone, hcond]

/-- Witness for claim C7 at a concrete run: one successful iteration, then
a failing read. -/
theorem pump_failure_sets_flag_and_stops_witness :
    (∃ e, (stream_microphone ([⟨true, true, .ok [7, 8], .ok ()⟩] ++
        ⟨true, true, .error "device gone", .ok ()⟩ ::
        [⟨true, true, .ok [9], .ok ()⟩])).exit = PumpExit.fault e) ∧
    (stream_microphone ([⟨true, true, .ok [7, 8], .ok ()⟩] ++
        ⟨true, true, .error "device gone", .ok ()⟩ ::
        [⟨true, true, .ok [9], .ok ()⟩])).wroteFlagFalse = true ∧
    (stream_microphone ([⟨true, true, .ok [7, 8], .ok ()⟩] ++
        ⟨true, true, .error "device gone", .ok ()⟩ ::
        [⟨true, true, .ok [9], .ok ()⟩])).sent =
      [⟨true, true, .ok [7, 8], .ok ()⟩].map
        (fun s => OutboundMessage.audioAppend (b64encode (stepFrame s))) :=
  pump_failure_sets_flag_and_stops [⟨true, true, .ok [7, 8], .ok ()⟩]
    ⟨true, true, .error "device gone", .ok ()⟩ [⟨true, true, .ok [9], .ok ()⟩]
    (by intro s hs
        simp only [List.mem_singleton] at hs
        exact hs ▸ ⟨rfl, rfl, ⟨[7, 8], rfl⟩, rfl⟩)
    rfl rfl (Or.inl ⟨"device gone", rfl⟩)

/-- Witness for claim C8 at a concrete run: one active iteration, then the
flag is observed false at check 1; only one send happened. -/
theorem pump_stops_within_one_cycle_witness :
    (stream_microphone [⟨true, true, .ok [1], .ok ()⟩,
      ⟨false, true, .ok [2], .ok ()⟩]).sent.length ≤ 1 :=
  pump_stops_within_one_cycle
    [⟨true, true, .ok [1], .ok ()⟩, ⟨false, true, .ok [2], .ok ()⟩]
    1 (by decide) rfl

/-- Claim C3: a malformed (non-JSON-decodable) inbound message produces no
output at all, and the dispatcher continues: the messages after it are
processed exactly as they would be on their own. -/
theorem malformed_discarded_silently (pre post : List InboundMsg) (raw : String)
    (se : Option String) :
    handle_websocket_messages (pre ++ InboundMsg.malformed raw :: post) se =
      handle_websocket_messages pre none ++ handle_websocket_messages post se := by
  cases se <;> simp [handle_websocket_messages, processMsg]

/-- Claim C6: an exception raised while handling one successfully decoded
event is caught inside the loop: the run's output is the output for the
preceding messages, then the event's prints up to the fault followed by the
`"Error processing message:"` report, then the output for every subsequent
message, processed exactly as they would be on their own. -/
theorem handling_exception_does_not_stop_loop (pre post : List InboundMsg)
    (d : EventData) (k : Nat) (e : String) (se : Option String) :
    handle_websocket_messages (pre ++ InboundMsg.valid d (some (k, e)) :: post) se =
      handle_websocket_messages pre none ++
        ((eventOutputs d).take k ++ ["Error processing message: " ++ e ++ "\n"]) ++
        handle_websocket_messages post se := by
  cases se <;> simp [handle_websocket_messages, processMsg]

/-- Claim C9: for any sequence of transcription-delta events followed by
one transcription-completed event with a non-empty `transcript` field `t`,
the final chunk the dispatcher writes is the transcript, newline-terminated
(preceded by the separating newline the code prints before it), whatever
the number and order of the deltas. -/
theorem final_transcript_is_completed_field (deltas : List String) (t : String)
    (ht : t ≠ "") :
    handle_websocket_messages
        (deltas.map (fun p => InboundMsg.valid (deltaEvent p) none) ++
          [InboundMsg.valid (completedEvent t) none]) none =
      (deltas.map (fun p => InboundMsg.valid (deltaEvent p) none)).flatMap processMsg ++
        ["Event type: " ++ completedEventType ++ "\n", "\n" ++ t ++ "\n"] ∧
    (handle_websocket_messages
        (deltas.map (fun p => InboundMsg.valid (deltaEvent p) none) ++
          [InboundMsg.valid (completedEvent t) none]) none).getLast? =
      some ("\n" ++ t ++ "\n") := by
  have hproc : processMsg (InboundMsg.valid (completedEvent t) none) =
      ["Event type: " ++ completedEventType ++ "\n", "\n" ++ t ++ "\n"] := by
    simp [processMsg, eventOutputs, dispatchEvent, completedEvent, ht,
      completedEventType, deltaEventType]
  have hmain : handle_websocket_messages
      (deltas.map (fun p => InboundMsg.valid (deltaEvent p) none) ++
        [InboundMsg.valid (completedEvent t) none]) none =
      (deltas.map (fun p => InboundMsg.valid (deltaEvent p) none)).flatMap processMsg ++
        ["Event type: " ++ completedEventType ++ "\n", "\n" ++ t ++ "\n"] := by
    simp [handle_websocket_messages, hproc]
  refine ⟨hmain, ?_⟩
  rw [hmain, show (deltas.map (fun p => InboundMsg.valid (deltaEvent p) none)).flatMap
        processMsg ++
      ["Event type: " ++ completedEventType ++ "\n", "\n" ++ t ++ "\n"] =
    ((deltas.map (fun p => InboundMsg.valid (deltaEvent p) none)).flatMap processMsg ++
      ["Event type: " ++ completedEventType ++ "\n"]) ++ [("\n" ++ t ++ "\n")] by
      simp]
  exact List.getLast?_concat _

/-- Witness for claim C9 at the spec's own example: deltas `"Hel"`, `"lo "`
then completed `"Hello world"`. -/
theorem final_transcript_is_completed_field_witness :
    handle_websocket_messages
        ((["Hel", "lo "].map (fun p => InboundMsg.valid (deltaEvent p) none)) ++
          [InboundMsg.valid (completedEvent "Hello world") none]) none =
      ((["Hel", "lo "].map (fun p => InboundMsg.valid (deltaEvent p) none)).flatMap
          processMsg ++
        ["Event type: " ++ completedEventType ++ "\n", "\n" ++ "Hello world" ++ "\n"]) ∧
    (handle_websocket_messages
        ((["Hel", "lo "].map (fun p => InboundMsg.valid (deltaEvent p) none)) ++
          [InboundMsg.valid (completedEvent "Hello world") none]) none).getLast? =
      some ("\n" ++ "Hello world" ++ "\n") :=
  final_transcript_is_completed_field ["Hel", "lo "] "Hello world" (by decide)

/-- Claim C10: the dispatcher's first print for every successfully decoded
event, of known or unknown kind, is the newline-terminated
`"Event type: <type>"` line, before any kind-specific output; in
particular the line is interleaved between consecutive delta fragments. -/
theorem event_type_line_before_handling (d : EventData) (p1 p2 : String)
    (h1 : p1 ≠ "") (h2 : p2 ≠ "") :
    processMsg (InboundMsg.valid d none) =
      ("Event type: " ++ d.typ ++ "\n") :: dispatchEvent d ∧
    handle_websocket_messages
        [InboundMsg.valid (deltaEvent p1) none,
         InboundMsg.valid (deltaEvent p2) none] none =
      ["Event type: " ++ deltaEventType ++ "\n", p1 ++ " ",
       "Event type: " ++ deltaEventType ++ "\n", p2 ++ " "] := by
  refine ⟨rfl, ?_⟩
  simp [handle_websocket_messages, processMsg, eventOutputs, dispatchEvent,
    deltaEvent, deltaEventType, h1, h2]

/-- Witness for claim C10 at concrete inputs. -/
theorem event_type_line_before_handling_witness :
    processMsg (InboundMsg.valid (completedEvent "done") none) =
      ("Event type: " ++ (completedEvent "done").typ ++ "\n") ::
        dispatchEvent (completedEvent "done") ∧
    handle_websocket_messages
        [InboundMsg.valid (deltaEvent "Hel") none,
         InboundMsg.valid (deltaEvent "lo ") none] none =
      ["Event type: " ++ deltaEventType ++ "\n", "Hel" ++ " ",
       "Event type: " ++ deltaEventType ++ "\n", "lo " ++ " "] :=
  event_type_line_before_handling (completedEvent "done") "Hel" "lo "
    (by decide) (by decide)

/-- Claim C4: whatever the outcome of the wait on the two tasks — both
returned, a task raised, or the wait was cancelled — `connect_and_run`
leaves the active flag false, the websocket closed, the audio stream
stopped and closed (one more `stop_stream` and `close` call each), and the
audio interface terminated (one more `terminate` call): the teardown runs
unconditionally. -/
theorem controller_unconditional_teardown (s : SDKState) (st0 : AudioStream)
    (sched : List PumpStep) (w : WaitOutcome) (h : s.stream = some st0) :
    ((connect_and_run s (Except.ok ()) (Except.ok ()) sched w).1).is_streaming = false ∧
    ((connect_and_run s (Except.ok ()) (Except.ok ()) sched w).1).websocketOpen = false ∧
    ((connect_and_run s (Except.ok ()) (Except.ok ()) sched w).1).stream =
      some ⟨st0.stopCalls + 1, st0.closeCalls + 1⟩ ∧
    ((connect_and_run s (Except.ok ()) (Except.ok ()) sched w).1).interfaceTerminateCalls =
      s.interfaceTerminateCalls + 1 := by
  cases w <;> simp [connect_and_run, cleanup, h]

/-- Witness for claim C4 at a concrete state and a task failure. -/
theorem controller_unconditional_teardown_witness :
    ((connect_and_run ⟨some ⟨0, 0⟩, 0, false, false⟩ (Except.ok ()) (Except.ok ())
        [] (WaitOutcome.taskRaised "boom")).1).is_streaming = false ∧
    ((connect_and_run ⟨some ⟨0, 0⟩, 0, false, false⟩ (Except.ok ()) (Except.ok ())
        [] (WaitOutcome.taskRaised "boom")).1).websocketOpen = false ∧
    ((connect_and_run ⟨some ⟨0, 0⟩, 0, false, false⟩ (Except.ok ()) (Except.ok ())
        [] (WaitOutcome.taskRaised "boom")).1).stream =
      some ⟨(0 : Nat) + 1, (0 : Nat) + 1⟩ ∧
    ((connect_and_run ⟨some ⟨0, 0⟩, 0, false, false⟩ (Except.ok ()) (Except.ok ())
        [] (WaitOutcome.taskRaised "boom")).1).interfaceTerminateCalls = 0 + 1 :=
  controller_unconditional_teardown ⟨some ⟨0, 0⟩, 0, false, false⟩ ⟨0, 0⟩ []
    (WaitOutcome.taskRaised "boom") rfl

/-- Claim C5 is violated by the code: `cleanup` never clears `self.stream`
or guards against re-entry, so the second of the two `cleanup` calls that
every run performs (the `finally` of `connect_and_run` and the `finally` of
`run`) calls `stop_stream` and `close` again on the already-closed stream
and `terminate` again on the already-terminated interface — a double
release (which raises `OSError` with a real PyAudio stream). -/
theorem cleanup_twice_double_release :
    (cleanup (cleanup ⟨some ⟨0, 0⟩, 0, true, false⟩)).stream = some ⟨2, 2⟩ ∧
    (cleanup (cleanup ⟨some ⟨0, 0⟩, 0, true, false⟩)).interfaceTerminateCalls = 2 := by
  decide

/-- Claim C1 is violated by the code: the controller's wait is
`await asyncio.gather(audio_task, message_task)`, which completes at the
first task failure but, when the first task returns normally, keeps
waiting until the other task also finishes — here, tasks returning
normally at times 1 and 2 make the wait complete at time 2, not at the
first finish time 1 (the code's own comment says "Wait for either task to
complete (or fail)"). -/
theorem gather_waits_for_both_normal_returns :
    gatherCompletionTime ⟨1, false⟩ ⟨2, false⟩ = 2 ∧
    firstFinishTime ⟨1, false⟩ ⟨2, false⟩ = 1 ∧
    gatherCompletionTime ⟨2, true⟩ ⟨5, false⟩ = 2 := by
  decide

end RealtimeSDK
